import Mathlib

/-!
Shallow embedding of the README/metadata CI checkers
(`Scripts/CI/common.py` and `Scripts/CI/metadata_checker.py`).

The Python code works on `str`; we embed strings as Lean `String`
(a list of unicode code points), which matches CPython's semantics for
the operations used here: code-point-wise comparison, concatenation,
splitting, and per-character case mapping.  The case-mapping helpers
(`str.lower`, `str.upper`, `str.capitalize`, `str.casefold`) are embedded
with Lean's ASCII `Char.toLower`/`Char.toUpper`; the repository data these
scripts run on is ASCII, where the two agree.  `str.strip`/`str.rstrip`
use Python's ASCII whitespace set.
-/

namespace PyStr

/-- The whitespace characters recognized by Python's `str.strip()` for
ASCII text: space, tab, newline, carriage return, vertical tab, form feed. -/
def pyWhitespace : List Char := [' ', '\t', '\n', '\r', '\x0b', '\x0c']

/-- Whether a character is Python whitespace. -/
def pyIsSpace (c : Char) : Bool := pyWhitespace.contains c

/-- Drop the leading characters of `l` satisfying `strip` (Python `lstrip`). -/
def lstripBy (strip : Char → Bool) (l : List Char) : List Char :=
  l.dropWhile strip

/-- Drop the trailing characters of `l` satisfying `strip` (Python `rstrip`). -/
def rstripBy (strip : Char → Bool) (l : List Char) : List Char :=
  (l.reverse.dropWhile strip).reverse

/-- Python `s.lstrip(chars)`: remove every leading character in `chars`. -/
def pyLstrip (s : String) (chars : List Char) : String :=
  ⟨lstripBy (fun c => chars.contains c) s.data⟩

/-- Python `s.rstrip()`: remove trailing whitespace. -/
def pyRstrip (s : String) : String :=
  ⟨rstripBy pyIsSpace s.data⟩

/-- Python `s.strip()`: remove leading and trailing whitespace. -/
def pyStrip (s : String) : String :=
  ⟨rstripBy pyIsSpace (lstripBy pyIsSpace s.data)⟩

/-- Characters that terminate a line for Python `str.splitlines()`
(besides the two-character sequence CR LF, which is handled separately). -/
def lineBreakChars : List Char :=
  ['\n', '\r', '\x0b', '\x0c', '\x1c', '\x1d', '\x1e', '\u0085', '\u2028', '\u2029']

/-- Worker for `pySplitlines`: `acc` holds the current line, reversed. -/
def splitlinesAux : List Char → List Char → List String
  | [], acc => if acc.isEmpty then [] else [⟨acc.reverse⟩]
  | '\r' :: '\n' :: rest, acc => ⟨acc.reverse⟩ :: splitlinesAux rest []
  | c :: rest, acc =>
    if lineBreakChars.contains c then ⟨acc.reverse⟩ :: splitlinesAux rest []
    else splitlinesAux rest (c :: acc)

/-- Python `s.splitlines()`: split at line boundaries, without keeping the
line-break characters; no trailing empty line is produced. -/
def pySplitlines (s : String) : List String :=
  splitlinesAux s.data []

/-- Worker for `pySplit`: `acc` holds the current piece, reversed. -/
def splitCharAux (sep : Char) : List Char → List Char → List String
  | [], acc => [⟨acc.reverse⟩]
  | c :: rest, acc =>
    if c = sep then ⟨acc.reverse⟩ :: splitCharAux sep rest []
    else splitCharAux sep rest (c :: acc)

/-- Python `s.split(sep)` for a one-character separator: keeps empty pieces,
and always returns at least one piece (`''.split(',') == ['']`). -/
def pySplit (s : String) (sep : Char) : List String :=
  splitCharAux sep s.data []

/-- Python `s.lower()` (ASCII). -/
def pyLower (s : String) : String := ⟨s.data.map Char.toLower⟩

/-- Python `s.upper()` (ASCII). -/
def pyUpper (s : String) : String := ⟨s.data.map Char.toUpper⟩

/-- Python `s.capitalize()`: first character uppercased, the rest lowercased. -/
def pyCapitalize (s : String) : String :=
  match s.data with
  | [] => ""
  | c :: cs => ⟨Char.toUpper c :: cs.map Char.toLower⟩

/-- Python `s.casefold()`; for ASCII text it coincides with `s.lower()`. -/
def pyCasefold (s : String) : String := pyLower s

/-- Lexicographic code-point strict comparison of character lists, as an
executable Bool function.  This is the order CPython uses on `str`. -/
def lexLt : List Char → List Char → Bool
  | _, [] => false
  | [], _ :: _ => true
  | a :: as, b :: bs =>
    if a < b then true
    else if b < a then false
    else lexLt as bs

/-- The comparison used by Python's `sorted` on strings: `a <= b`, that is,
not `b < a`, under the code-point lexicographic order. -/
def pyStrLe (a b : String) : Bool := !(lexLt b.data a.data)

/-- The ordering relation of Python's `sorted` on strings, as a `Prop`. -/
def pyLeRel (a b : String) : Prop := pyStrLe a b = true

instance : DecidableRel pyLeRel := fun a b =>
  inferInstanceAs (Decidable (pyStrLe a b = true))

/-- Python `sorted(l)` on strings.  CPython's sort is a stable ascending
sort under the default (case-sensitive, code-point) order; any stable sort
produces the same output, and we use insertion sort. -/
def pySorted (l : List String) : List String := l.insertionSort pyLeRel

/-- The key ordering of Python `sorted(l, key=str.casefold)` as a `Prop`. -/
def pyCasefoldLeRel (a b : String) : Prop := pyStrLe (pyCasefold a) (pyCasefold b) = true

instance : DecidableRel pyCasefoldLeRel := fun a b =>
  inferInstanceAs (Decidable (pyStrLe (pyCasefold a) (pyCasefold b) = true))

/-- Python `sorted(l, key=str.casefold)`: stable ascending sort comparing
casefolded keys. -/
def pySortedCasefold (l : List String) : List String :=
  l.insertionSort pyCasefoldLeRel

/-- Worker for `strIn`: is `needle` a contiguous run inside `hay`? -/
def inCharList (needle : List Char) : List Char → Bool
  | [] => needle.isEmpty
  | c :: rest => needle.isPrefixOf (c :: rest) || inCharList needle rest

/-- Python `needle in hay` for strings: substring containment. -/
def strIn (needle hay : String) : Bool := inCharList needle.data hay.data

end PyStr

open PyStr

namespace CI

/-- The regex character class of `common.sub_special_char`:
`[@_!#$%^&*<>?|/\\}{~:]`. -/
def specialChars : List Char :=
  ['@', '_', '!', '#', '$', '%', '^', '&', '*', '<', '>', '?', '|', '/', '\\',
   '\x7d', '\x7b', '~', ':']

/-- `common.sub_special_char`: remove every occurrence of the special
characters from the string (`re.sub(regex, '', string)`). -/
def sub_special_char (string : String) : String :=
  ⟨string.data.filter (fun c => !(specialChars.contains c))⟩

/-- `common.parse_head`: split the title section into non-empty lines
(`filter(bool, head_string.splitlines())`); fail when fewer than three;
the title is line 1 with leading `#`/space characters and trailing
whitespace removed, the description is line 2 stripped. -/
def parse_head (head_string : String) : Except String (String × String) :=
  match (pySplitlines head_string).filter (fun l => l != "") with
  | p0 :: p1 :: _ :: _ =>
    Except.ok (pyRstrip (pyLstrip p0 ['#', ' ']), pyStrip p1)
  | _ => Except.error "README description parse failure!"

/-- Strip one API line as `common.parse_apis` does: `api.lstrip('*- ').rstrip()`. -/
def stripApiLine (api : String) : String := pyRstrip (pyLstrip api ['*', '-', ' '])

/-- `common.parse_apis`: keep the non-empty lines, fail when there are none,
strip each line's bullet and trailing whitespace, and return the result of
Python `sorted` (default, code-point order). -/
def parse_apis (apis_string : String) : Except String (List String) :=
  match (pySplitlines apis_string).filter (fun l => l != "") with
  | [] => Except.error "README Relevant API parse failure!"
  | apis => Except.ok (pySorted (apis.map stripApiLine))

/-- `common.parse_tags`: split on commas (which in Python always yields at
least one piece, so the empty-list guard can never fire), strip each piece,
and return the result of Python `sorted`. -/
def parse_tags (tags_string : String) : Except String (List String) :=
  match pySplit tags_string ',' with
  | [] => Except.error "README Tags parse failure!"
  | tags => Except.ok (pySorted (tags.map pyStrip))

/-- The proper-noun exceptions of `common.exception_proper_nouns` (a Python
set; embedded as a list, only membership is ever used). -/
def exception_proper_nouns : List String :=
  ["Arcade", "ArcGIS Online", "ArcGIS Pro", "GeoPackage", "OAuth",
   "OpenStreetMap", "SwiftUI", "Web Mercator"]

/-- The per-tag letter-case test of `common.check_tags`: a stripped tag `t`
is bad when it is not lowercase, not uppercase, not capitalized, and not an
exception proper noun. -/
def badTagCase (t : String) : Bool :=
  pyLower t != t && pyUpper t != t && pyCapitalize t != t &&
    !(exception_proper_nouns.contains t)

/-- `common.check_tags`: split on commas, then in order (as the source
raises): a letter-case error for the first offending tag (raised inside the
loop, before the post-loop guards), an empty tag, a byte-exact re-join
mismatch against the stripped input, duplicates (the Python set `s` has
fewer elements than the list), and case-insensitive sort order.  The Python
function returns the set of stripped tags; we return the stripped tags with
duplicates erased. -/
def check_tags (tags_string : String) : Except String (List String) :=
  match pySplit tags_string ',' with
  | [] => Except.error "Empty tags."
  | tags =>
    let stripped_tags := tags.map pyStrip
    match stripped_tags.find? badTagCase with
    | some t => Except.error ("Wrong letter case for tag: \"" ++ t ++ "\".")
    | none =>
      if stripped_tags.contains "" then
        Except.error "Empty char in tags."
      else if String.intercalate ", " stripped_tags != pyStrip tags_string then
        Except.error "Extra whitespaces in tags."
      else if tags.length > stripped_tags.eraseDups.length then
        Except.error "Duplicate tags."
      else if stripped_tags != pySortedCasefold stripped_tags then
        Except.error "Tags are not sorted."
      else Except.ok stripped_tags.eraseDups

/-- The backward walk of `common.check_is_subsequence`, on the reversed
lists: `pa` counts the elements of `list_a` not yet consumed; every element
of `list_b` is visited once from the back, and `pa` is decremented exactly
when the current elements match. -/
def greedyBack : List String → List String → Nat
  | [], _ => 0
  | a :: ra, [] => (a :: ra).length
  | a :: ra, b :: rb => if b = a then greedyBack ra rb else greedyBack (a :: ra) rb

/-- `common.check_is_subsequence`.  For an empty `list_a` the Python
function returns `True`, which every caller receives as the integer 1
(`True == 1` in Python); otherwise it runs the backward greedy walk and
returns the number of elements of `list_a` left unconsumed. -/
def check_is_subsequence (list_a list_b : List String) : Nat :=
  if list_a.isEmpty then 1
  else greedyBack list_a.reverse list_b.reverse

/-- `common.Readme.essential_headers` (a Python set; embedded as a list,
only membership is used). -/
def essential_headers : List String :=
  ["Use case", "How to use the sample", "How it works", "Relevant API", "Tags"]

/-- `common.Readme.available_headers`, in canonical order. -/
def available_headers : List String :=
  ["Use case", "How to use the sample", "How it works", "Relevant API",
   "Offline data", "About the data", "Additional information", "Tags"]

/-- `common.Readme.check_format_heading`: reject headers outside the allowed
list (`header_set - possible_header_set`), then missing essential headers
(`essential_headers - header_set`), then a wrong order, detected by
`check_is_subsequence` returning nonzero.  The source interpolates the
offending set or header into each message; the messages here keep only the
fixed text, since only which error is raised is ever inspected. -/
def check_format_heading (readme_headers : List String) : Except String Unit :=
  if !(readme_headers.all (fun h => available_headers.contains h)) then
    Except.error "Error header - Unexpected header or extra whitespace"
  else if !(essential_headers.all (fun h => readme_headers.contains h)) then
    Except.error "Error header - Missing essential header(s)"
  else if check_is_subsequence readme_headers available_headers != 0 then
    Except.error "Error header - Wrong order"
  else Except.ok ()

/-- The README-derived fields of `common.Metadata` that
`populate_from_readme` fills in. -/
structure Metadata where
  title : String
  description : String
  relevant_apis : List String
  keywords : List String
deriving Repr, DecidableEq

/-- `common.Metadata.populate_from_readme`, applied to the already-split
`readme_parts` (the file read and the regex split are outside this model)
and the sample folder's name.  Mirrors the source order: the two
`list.index` calls (Python raises `ValueError` when the header is absent),
`parse_head` on `readme_parts[0]`, the folder-name consistency check, then
the API and tag section reads (Python raises `IndexError` when the computed
index is out of range) and the keyword merge. -/
def populate_from_readme (readme_parts : List String) (folder_name : String) :
    Except String Metadata :=
  match List.findIdx? (· == "Relevant API") readme_parts with
  | none => Except.error "ValueError: 'Relevant API' is not in list"
  | some apiHdrIdx =>
    match List.findIdx? (· == "Tags") readme_parts with
    | none => Except.error "ValueError: 'Tags' is not in list"
    | some tagsHdrIdx =>
      match readme_parts with
      | [] => Except.error "IndexError: list index out of range"
      | p0 :: _ =>
        match parse_head p0 with
        | Except.error e => Except.error e
        | Except.ok (title, description) =>
          if title != folder_name then
            Except.error ("Folder name incorrect: \"" ++ folder_name ++ "\"")
          else
            match readme_parts.get? (apiHdrIdx + 1) with
            | none => Except.error "IndexError: list index out of range"
            | some apiBody =>
              match parse_apis apiBody with
              | Except.error e => Except.error e
              | Except.ok relevant_apis =>
                match readme_parts.get? (tagsHdrIdx + 1) with
                | none => Except.error "IndexError: list index out of range"
                | some tagsBody =>
                  match parse_tags tagsBody with
                  | Except.error e => Except.error e
                  | Except.ok keywords =>
                    Except.ok
                      { title := title
                        description := description
                        relevant_apis := relevant_apis
                        keywords :=
                          keywords.filter (fun w => !(relevant_apis.contains w))
                            ++ relevant_apis }

/-- The description lenience rule of `metadata_checker.run_check`: the
Python test is `json_data['description'] in sub_special_char(checker.description)`,
string membership, i.e. substring containment; when it holds the checker's
description is overwritten by the persisted one before the diff. -/
def resolve_description (derived persisted : String) : String :=
  if strIn persisted (sub_special_char derived) then persisted else derived

/-- The snippets lenience rule of `metadata_checker.run_check`: when the
persisted snippet list sorts to the derived (already sorted) list, the
persisted order is kept for the comparison. -/
def resolve_snippets (derived persisted : List String) : List String :=
  if pySorted persisted = derived then persisted else derived

/-- Test fixture: README parts of a small well-formed sample, in the shape
`get_readme_parts` produces (title block, then header/body pairs). -/
def sampleParts : List String :=
  ["# Display map\nShows a map.\n![image](map.png)", "Relevant API",
   "* Map\n* MapView", "Tags", "basemap, map"]

/-- Test fixture: the metadata `populate_from_readme` derives from
`sampleParts` with folder name `Display map`. -/
def sampleMetadata : Metadata :=
  { title := "Display map", description := "Shows a map.",
    relevant_apis := ["Map", "MapView"],
    keywords := ["basemap", "map", "Map", "MapView"] }

end CI

open CI

theorem lexLt_eq_true_iff : ∀ l₁ l₂ : List Char, lexLt l₁ l₂ = true ↔ l₁ < l₂
  | l₁, [] => by
    constructor
    · intro h; cases l₁ <;> simp [lexLt] at h
    · intro h; cases h
  | [], b :: bs => by
    simp only [lexLt, true_iff]
    exact List.nil_lt_cons b bs
  | a :: as, b :: bs => by
    show lexLt (a :: as) (b :: bs) = true ↔ List.Lex (· < ·) (a :: as) (b :: bs)
    rw [lexLt]
    by_cases hab : a < b
    · simp only [hab, if_true, true_iff]
      exact List.Lex.rel hab
    · by_cases hba : b < a
      · simp only [hab, hba, if_false, if_true]
        refine iff_of_false (by simp) ?_
        intro h
        cases h with
        | cons _ => exact (lt_irrefl a) hba
        | rel h => exact hab h
      · have hEq : a = b := le_antisymm (le_of_not_lt hba) (le_of_not_lt hab)
        subst hEq
        simp only [hab, hba, if_false]
        rw [lexLt_eq_true_iff as bs]
        constructor
        · exact fun h => List.Lex.cons h
        · intro h
          cases h with
          | cons h => exact h
          | rel h => exact absurd h hab

theorem pyStrLe_eq_true_iff (a b : String) : pyStrLe a b = true ↔ a ≤ b := by
  rw [pyStrLe, Bool.not_eq_true', ← Bool.not_eq_true]
  rw [lexLt_eq_true_iff b.data a.data]
  rw [String.le_iff_toList_le]
  exact not_lt

theorem pyLeRel_iff (a b : String) : pyLeRel a b ↔ a ≤ b := pyStrLe_eq_true_iff a b

/-- The Python string order is total. -/
theorem pyLeRel_total (a b : String) : pyLeRel a b ∨ pyLeRel b a := by
  rcases le_total a b with h | h
  · exact Or.inl ((pyLeRel_iff a b).mpr h)
  · exact Or.inr ((pyLeRel_iff b a).mpr h)

/-- The Python string order is transitive. -/
theorem pyLeRel_trans (a b c : String) (ha : pyLeRel a b) (hb : pyLeRel b c) :
    pyLeRel a c :=
  (pyLeRel_iff a c).mpr (le_trans ((pyLeRel_iff a b).mp ha) ((pyLeRel_iff b c).mp hb))

/-- The Python string order is antisymmetric. -/
theorem pyLeRel_antisymm (a b : String) (ha : pyLeRel a b) (hb : pyLeRel b a) :
    a = b :=
  le_antisymm ((pyLeRel_iff a b).mp ha) ((pyLeRel_iff b a).mp hb)

/-- `pySorted` output is sorted under the Python string order. -/
theorem pySorted_sorted (l : List String) : List.Sorted pyLeRel (pySorted l) := by
  haveI : IsTotal String pyLeRel := ⟨pyLeRel_total⟩
  haveI : IsTrans String pyLeRel := ⟨pyLeRel_trans⟩
  exact List.sorted_insertionSort pyLeRel l

/-- `pySorted` output is a permutation of the input. -/
theorem pySorted_perm (l : List String) : (pySorted l).Perm l :=
  List.perm_insertionSort pyLeRel l

/-- Sorting a permutation of an already-sorted list returns that list. -/
theorem pySorted_eq_of_perm_of_sorted {l sorted_l : List String}
    (hperm : l.Perm sorted_l) (hsorted : List.Sorted pyLeRel sorted_l) :
    pySorted l = sorted_l := by
  haveI : IsAntisymm String pyLeRel := ⟨pyLeRel_antisymm⟩
  exact List.eq_of_perm_of_sorted ((pySorted_perm l).trans hperm)
    (pySorted_sorted l) hsorted

example : populate_from_readme
    ["# Display map\nShows a map.\n![image](map.png)", "Relevant API",
     "* Map\n* MapView", "Tags", "basemap, map"] "Display map"
    = Except.ok
        { title := "Display map", description := "Shows a map.",
          relevant_apis := ["Map", "MapView"],
          keywords := ["basemap", "map", "Map", "MapView"] } := rfl
example : populate_from_readme
    ["# Display Map\nShows a map.\n![image](map.png)", "Relevant API",
     "* Map", "Tags", "map"] "Display map"
    = Except.error "Folder name incorrect: \"Display map\"" := rfl
example : resolve_description "Display a map" "Display" = "Display" := rfl
example : resolve_description "Display a map" "Show a map" = "Display a map" := rfl
example : resolve_snippets ["A.swift", "B.swift"] ["B.swift", "A.swift"]
    = ["B.swift", "A.swift"] := rfl
example : resolve_snippets ["A.swift", "B.swift"] ["B.swift", "C.swift"]
    = ["A.swift", "B.swift"] := rfl

/-- The backward greedy walk consumes all of `ra` exactly when `ra` is a
subsequence of `rb`. -/
theorem greedyBack_eq_zero_iff : ∀ ra rb : List String,
    greedyBack ra rb = 0 ↔ ra.Sublist rb
  | [], rb => by
    simp only [greedyBack, true_iff]
    exact List.nil_sublist rb
  | a :: ra, [] => by
    rw [greedyBack]
    refine iff_of_false (by simp) ?_
    intro h
    exact absurd (List.sublist_nil.mp h) (by simp)
  | a :: ra, b :: rb => by
    rw [greedyBack]
    by_cases h : b = a
    · subst h
      simp only [if_true]
      rw [greedyBack_eq_zero_iff ra rb]
      exact List.cons_sublist_cons.symm
    · simp only [h, if_false]
      rw [greedyBack_eq_zero_iff (a :: ra) rb]
      constructor
      · exact fun hs => List.Sublist.cons b hs
      · intro hs
        cases hs with
        | cons _ hs => exact hs
        | cons₂ _ hs => exact absurd rfl h

/-- For a non-empty observed list, `check_is_subsequence` returns zero
exactly when the observed list is an order-preserving subsequence of the
canonical list. -/
theorem check_is_subsequence_eq_zero_iff (a b : List String) (ha : a ≠ []) :
    check_is_subsequence a b = 0 ↔ a.Sublist b := by
  rw [check_is_subsequence, if_neg (by simpa [List.isEmpty_iff] using ha)]
  rw [greedyBack_eq_zero_iff a.reverse b.reverse]
  exact List.reverse_sublist

example : check_tags "basemap, map" = Except.ok (["basemap", "map"]) := rfl
example : check_tags "map,  basemap" = Except.error "Extra whitespaces in tags." := rfl
example : check_is_subsequence ["a", "c"] ["a", "b", "c"] = 0 := rfl
example : check_is_subsequence ["c", "a"] ["a", "b", "c"] = 1 := rfl
example : check_is_subsequence [] ["a"] = 1 := rfl
example : check_format_heading essential_headers = Except.ok () := rfl
example : check_format_heading ["Use case", "How to use the sample", "How it works",
    "Relevant API", "Tags", "Tags"] = Except.error "Error header - Wrong order" := rfl

-- Sanity checks of the Python string model on concrete values.
example : sub_special_char "a_b{c}!" = "abc" := rfl
example : parse_head "# Display map\nShows a map.\n![image](map.png)"
    = Except.ok ("Display map", "Shows a map.") := rfl
example : parse_head "# Title\nDescription"
    = Except.error "README description parse failure!" := rfl
example : parse_apis "* MapView\n* Map" = Except.ok (["Map", "MapView"]) := rfl
example : parse_apis "Zebra\napple" = Except.ok (["Zebra", "apple"]) := rfl
example : parse_apis "\n" = Except.error "README Relevant API parse failure!" := rfl
example : parse_tags "basemap, map" = Except.ok (["basemap", "map"]) := rfl
example : parse_tags "" = Except.ok ([""]) := rfl
example : pySplit "" ',' = [""] := rfl
example : pySplit "a,,b" ',' = ["a", "", "b"] := rfl
example : pySplitlines "a\n\nb\n" = ["a", "", "b"] := rfl
example : pySplitlines "" = [] := rfl
example : pySplitlines "\n" = [""] := rfl
example : pySplitlines "a\r\nb" = ["a", "b"] := rfl
example : pyStrip "  a b\t" = "a b" := rfl
example : pyLstrip "## Title #" ['#', ' '] = "Title #" := rfl
example : pyCapitalize "gEO" = "Geo" := rfl
example : pySorted ["Zebra", "apple"] = ["Zebra", "apple"] := rfl
example : pySortedCasefold ["Zebra", "apple"] = ["apple", "Zebra"] := rfl
example : strIn "abc" "xabcy" = true := rfl
example : strIn "" "xy" = true := rfl
example : strIn "ac" "abc" = false := rfl

/-- Python `split` with a separator always returns at least one piece. -/
theorem splitCharAux_ne_nil (sep : Char) :
    ∀ l acc, splitCharAux sep l acc ≠ []
  | [], acc => by simp [splitCharAux]
  | c :: rest, acc => by
    rw [splitCharAux]
    split
    · simp
    · exact splitCharAux_ne_nil sep rest (c :: acc)

/-- Claim C3: for a non-empty observed list, `check_is_subsequence` returns zero
iff the observed list is an order-preserving subsequence of the canonical
list, and otherwise counts the unmatched observed elements; but on the
empty observed list — which is a subsequence of every list — the function
returns Python `True`, i.e. the integer 1, not 0, contradicting its own
docstring (`:return: 0 if list_a is subsequence of list_b`). -/
theorem claim3_check_is_subsequence_empty_returns_one :
    check_is_subsequence [] available_headers = 1 ∧
    List.Sublist ([] : List String) available_headers ∧
    (∀ a b : List String, a ≠ [] →
      (check_is_subsequence a b = 0 ↔ a.Sublist b)) :=
  ⟨rfl, List.nil_sublist _,
   fun a b ha => check_is_subsequence_eq_zero_iff a b ha⟩

/-- Claim C3 witness: the characterization applied to a concrete non-empty list. -/
theorem claim3_witness :
    check_is_subsequence ["Use case", "Tags"] available_headers = 0 ↔
      List.Sublist ["Use case", "Tags"] available_headers :=
  claim3_check_is_subsequence_empty_returns_one.2.2
    ["Use case", "Tags"] available_headers (by decide)

/-- Claim C8: a README header list containing the same header twice always makes
`check_format_heading` raise: even when the set-based subset and superset
guards pass, a list with a duplicate cannot be a subsequence of the
duplicate-free canonical header list, so the subsequence check is nonzero. -/
theorem claim8_duplicate_header_rejected (headers : List String)
    (hdup : ¬ headers.Nodup) :
    ∃ e, check_format_heading headers = Except.error e := by
  rw [check_format_heading]
  split
  · exact ⟨_, rfl⟩
  · split
    · exact ⟨_, rfl⟩
    · split
      · exact ⟨_, rfl⟩
      · exfalso
        rename_i h3
        have hz : check_is_subsequence headers available_headers = 0 := by
          simpa using h3
        have hne : headers ≠ [] := by
          rintro rfl
          exact hdup List.nodup_nil
        have hsub := (check_is_subsequence_eq_zero_iff headers
          available_headers hne).mp hz
        exact hdup (List.Nodup.sublist hsub (by decide))

/-- Claim C8 witness: the essential headers with `Tags` repeated pass the two
set-based guards yet are rejected. -/
theorem claim8_witness :
    ∃ e, check_format_heading ["Use case", "How to use the sample",
      "How it works", "Relevant API", "Tags", "Tags"] = Except.error e :=
  claim8_duplicate_header_rejected _ (by decide)

/-- Claim C4: `parse_tags` never raises: Python `str.split(',')` always returns a
non-empty list, so the `if not tags` guard is unreachable; on a Tags body
with no tags (the empty string) it returns the one-element list containing
the empty string instead of failing. -/
theorem claim4_parse_tags_never_fails :
    (∀ s : String, ∃ l, parse_tags s = Except.ok l) ∧
    parse_tags "" = Except.ok [""] := by
  constructor
  · intro s
    rw [parse_tags]
    split
    · rename_i hnil
      exact absurd hnil (splitCharAux_ne_nil ',' s.data [])
    · exact ⟨_, rfl⟩
  · rfl

/-- Claim C7: when the persisted snippets list is a permutation of the derived
(sorted) snippets list, the snippets lenience rule of the metadata checker
adopts the persisted order verbatim, so an ordering difference alone leaves
the compared snippets fields equal and cannot raise. -/
theorem claim7_snippets_order_lenient (derived persisted : List String)
    (hsorted : List.Sorted pyLeRel derived) (hperm : persisted.Perm derived) :
    resolve_snippets derived persisted = persisted := by
  rw [resolve_snippets, if_pos (pySorted_eq_of_perm_of_sorted hperm hsorted)]

/-- Claim C7 witness: the lenience rule on the spec's Example 5 input. -/
theorem claim7_witness :
    resolve_snippets ["A.swift", "B.swift"] ["B.swift", "A.swift"]
      = ["B.swift", "A.swift"] :=
  claim7_snippets_order_lenient ["A.swift", "B.swift"] ["B.swift", "A.swift"]
    (by decide) (by decide)

/-- Claim C1 counterexample: the persisted description `"Display"` is accepted
(it replaces the derived value) although it does not equal the derived
description with special characters stripped — the code's test is Python
string `in`, substring containment, not equality. -/
theorem claim1_counterexample :
    resolve_description "Display a map" "Display" = "Display" ∧
    "Display" ≠ sub_special_char "Display a map" :=
  ⟨rfl, by decide⟩

/-- Claim C1 (amended): the persisted description replaces the derived one
exactly when it is a substring of the derived description with the fixed
special-character set stripped (or the two are already equal); whenever the
substring test fails, the derived description is kept for the diff. -/
theorem claim1_description_replaced_iff_substring (derived persisted : String) :
    (resolve_description derived persisted = persisted ↔
      (strIn persisted (sub_special_char derived) = true ∨ persisted = derived)) ∧
    (strIn persisted (sub_special_char derived) = false →
      resolve_description derived persisted = derived) := by
  constructor
  · rw [resolve_description]
    split
    · rename_i h
      exact iff_of_true rfl (Or.inl h)
    · rename_i h
      constructor
      · intro he
        exact Or.inr he.symm
      · intro hc
        cases hc with
        | inl h1 => exact absurd h1 h
        | inr h1 => exact h1.symm
  · intro hfalse
    rw [resolve_description, if_neg (by simp [hfalse])]

/-- Claim C1 witness: the characterization at a concrete non-substring pair. -/
theorem claim1_witness :
    (resolve_description "a map" "a plan" = "a plan" ↔
      (strIn "a plan" (sub_special_char "a map") = true ∨ "a plan" = "a map")) ∧
    resolve_description "a map" "a plan" = "a map" :=
  ⟨(claim1_description_replaced_iff_substring "a map" "a plan").1,
   (claim1_description_replaced_iff_substring "a map" "a plan").2 (by decide)⟩

/-- Inversion for a successful `populate_from_readme`: the produced record's
title equals the folder name, its `relevant_apis` come from `parse_apis` on
some section body, and its `keywords` are the parsed tags with the tags
appearing in `relevant_apis` filtered out, followed by `relevant_apis`. -/
theorem populate_ok_spec (parts : List String) (fn : String) (m : Metadata)
    (h : populate_from_readme parts fn = Except.ok m) :
    m.title = fn ∧
    ∃ apiBody tagsBody apis tags,
      parse_apis apiBody = Except.ok apis ∧
      parse_tags tagsBody = Except.ok tags ∧
      m.relevant_apis = apis ∧
      m.keywords = tags.filter (fun w => !(apis.contains w)) ++ apis := by
  unfold populate_from_readme at h
  split at h
  · simp at h
  split at h
  · simp at h
  split at h
  · simp at h
  split at h
  · simp at h
  split at h
  · simp at h
  rename_i hbne
  split at h
  · simp at h
  split at h
  · simp at h
  split at h
  · simp at h
  split at h
  · simp at h
  simp only [Except.ok.injEq] at h
  subst h
  rename_i xA apiBody hgetA xB apis hparseA xC tagsBody hgetT xD tags hparseT
  refine ⟨by simpa using hbne, apiBody, tagsBody, apis, tags, hparseA,
    hparseT, rfl, rfl⟩

/-- When the header indices and the title parse succeed but the parsed
title differs from the folder name, `populate_from_readme` fails with the
folder-name message. -/
theorem populate_title_mismatch (fn p0 : String)
    (rest : List String) (i j : Nat) (t d : String)
    (hA : List.findIdx? (· == "Relevant API") (p0 :: rest) = some i)
    (hT : List.findIdx? (· == "Tags") (p0 :: rest) = some j)
    (hhead : parse_head p0 = Except.ok (t, d))
    (hne : t ≠ fn) :
    populate_from_readme (p0 :: rest) fn
      = Except.error ("Folder name incorrect: \"" ++ fn ++ "\"") := by
  unfold populate_from_readme
  simp only [hA, hT, hhead]
  simp [hne]

/-- Claim C5: derivation raises the folder-name consistency error whenever the
title parsed from the README title block differs from the sample folder's
name, and every successful derivation has its title equal to the folder
name. -/
theorem claim5_title_must_match_folder :
    (∀ (fn p0 : String) (rest : List String) (i j : Nat) (t d : String),
      List.findIdx? (· == "Relevant API") (p0 :: rest) = some i →
      List.findIdx? (· == "Tags") (p0 :: rest) = some j →
      parse_head p0 = Except.ok (t, d) → t ≠ fn →
      populate_from_readme (p0 :: rest) fn
        = Except.error ("Folder name incorrect: \"" ++ fn ++ "\"")) ∧
    (∀ (parts : List String) (fn : String) (m : Metadata),
      populate_from_readme parts fn = Except.ok m → m.title = fn) :=
  ⟨fun fn p0 rest i j t d hA hT hh hne =>
    populate_title_mismatch fn p0 rest i j t d hA hT hh hne,
   fun parts fn m h => (populate_ok_spec parts fn m h).1⟩

/-- Claim C5 witness: a capital-M title block mismatching folder `Display map`
fails with the folder-name message, and the sample derivation's title
equals the folder name. -/
theorem claim5_witness :
    populate_from_readme
      ["# Display Map\nShows a map.\n![image](map.png)", "Relevant API",
       "* Map\n* MapView", "Tags", "basemap, map"] "Display map"
      = Except.error ("Folder name incorrect: \"" ++ "Display map" ++ "\"") ∧
    sampleMetadata.title = "Display map" :=
  ⟨claim5_title_must_match_folder.1 "Display map"
      "# Display Map\nShows a map.\n![image](map.png)"
      ["Relevant API", "* Map\n* MapView", "Tags", "basemap, map"]
      1 3 "Display Map" "Shows a map." rfl rfl rfl (by decide),
   claim5_title_must_match_folder.2 sampleParts "Display map" sampleMetadata rfl⟩

/-- Claim C6: after every successful derivation, `keywords` is the parsed tag
list with every tag that occurs in `relevant_apis` removed, followed by the
full `relevant_apis` list, and the leading part is disjoint from
`relevant_apis`. -/
theorem claim6_keywords_merge (parts : List String) (fn : String) (m : Metadata)
    (h : populate_from_readme parts fn = Except.ok m) :
    ∃ (tagsBody : String) (tags : List String),
      parse_tags tagsBody = Except.ok tags ∧
      m.keywords
        = tags.filter (fun w => !(m.relevant_apis.contains w)) ++ m.relevant_apis ∧
      ∀ w ∈ tags.filter (fun w => !(m.relevant_apis.contains w)),
        w ∉ m.relevant_apis := by
  obtain ⟨-, apiBody, tagsBody, apis, tags, hA, hT, hra, hkw⟩ :=
    populate_ok_spec parts fn m h
  refine ⟨tagsBody, tags, hT, by rw [hkw, hra], ?_⟩
  intro w hw
  rw [List.mem_filter] at hw
  have h2 := hw.2
  rw [Bool.not_eq_true'] at h2
  simp only [List.contains] at h2
  intro hmem
  have h3 := List.elem_iff.mpr hmem
  rw [h2] at h3
  exact Bool.false_ne_true h3

/-- Claim C6 witness: the keyword merge on the sample fixture. -/
theorem claim6_witness :
    ∃ (tagsBody : String) (tags : List String),
      parse_tags tagsBody = Except.ok tags ∧
      sampleMetadata.keywords
        = tags.filter (fun w => !(sampleMetadata.relevant_apis.contains w))
            ++ sampleMetadata.relevant_apis ∧
      ∀ w ∈ tags.filter (fun w => !(sampleMetadata.relevant_apis.contains w)),
        w ∉ sampleMetadata.relevant_apis :=
  claim6_keywords_merge sampleParts "Display map" sampleMetadata rfl

/-- Claim C9: `check_tags` succeeds only when joining the whitespace-stripped
tags with a comma and a space reproduces the original tag string trimmed of
surrounding whitespace, byte for byte. -/
theorem claim9_tags_roundtrip (s : String) (l : List String)
    (h : check_tags s = Except.ok l) :
    String.intercalate ", " ((pySplit s ',').map pyStrip) = pyStrip s := by
  unfold check_tags at h
  split at h
  · simp at h
  simp only [] at h
  split at h
  · simp at h
  split at h
  · simp at h
  split at h
  · simp at h
  rename_i hjoin
  simpa using hjoin

/-- Claim C9 witness: the round-trip law at a concrete accepted tag string. -/
theorem claim9_witness :
    String.intercalate ", " ((pySplit "basemap, map" ',').map pyStrip)
      = pyStrip "basemap, map" :=
  claim9_tags_roundtrip "basemap, map" ["basemap", "map"] rfl

/-- Claim C2 counterexample: `parse_apis` uses Python's default `sorted`, which
is case-sensitive code-point order, so on the body `Zebra\napple` it
returns `["Zebra", "apple"]` — a list that is not sorted by the
case-insensitive (casefolded) comparison the claim asserts. -/
theorem claim2_counterexample :
    parse_apis "Zebra\napple" = Except.ok ["Zebra", "apple"] ∧
    ¬ List.Sorted pyCasefoldLeRel ["Zebra", "apple"] :=
  ⟨rfl, by decide⟩

/-- Claim C2 (amended): for every non-empty Relevant API section body,
`parse_apis` returns a permutation of the bullet-stripped, trimmed API
names sorted by Python's default case-sensitive code-point comparison, and
every successful derivation appends `relevant_apis` (this parsed list) as
the trailing segment of `keywords` in that order. -/
theorem claim2_apis_sorted_code_point :
    (∀ (s : String) (l : List String), parse_apis s = Except.ok l →
      l.Perm (((pySplitlines s).filter (fun x => x != "")).map stripApiLine) ∧
      List.Sorted pyLeRel l) ∧
    (∀ (parts : List String) (fn : String) (m : Metadata),
      populate_from_readme parts fn = Except.ok m →
      ∃ pre, m.keywords = pre ++ m.relevant_apis) := by
  constructor
  · intro s l h
    unfold parse_apis at h
    cases hfl : (pySplitlines s).filter (fun x => x != "") with
    | nil =>
      rw [hfl] at h
      simp at h
    | cons a as =>
      rw [hfl] at h
      simp only [Except.ok.injEq] at h
      subst h
      exact ⟨pySorted_perm _, pySorted_sorted _⟩
  · intro parts fn m h
    obtain ⟨-, apiBody, tagsBody, apis, tags, hA, hT, hra, hkw⟩ :=
      populate_ok_spec parts fn m h
    exact ⟨tags.filter (fun w => !(apis.contains w)), by rw [hkw, hra]⟩

/-- Claim C2 witness: both parts at the sample fixture. -/
theorem claim2_witness :
    ((["Map", "MapView"] : List String).Perm
        (((pySplitlines "* Map\n* MapView").filter (fun x => x != "")).map
          stripApiLine) ∧
      List.Sorted pyLeRel ["Map", "MapView"]) ∧
    ∃ pre, sampleMetadata.keywords = pre ++ sampleMetadata.relevant_apis :=
  ⟨claim2_apis_sorted_code_point.1 "* Map\n* MapView" ["Map", "MapView"] rfl,
   claim2_apis_sorted_code_point.2 sampleParts "Display map" sampleMetadata rfl⟩

theorem lstrip_hash_append (name : String)
    (hc : ∀ c, name.data.head? = some c → c ≠ '#' ∧ c ≠ ' ') :
    pyLstrip ("# " ++ name) ['#', ' '] = name := by
  have hdata : ("# " ++ name).data = '#' :: ' ' :: name.data := by
    rw [String.data_append]
    rfl
  rw [pyLstrip, hdata]
  show String.mk (lstripBy (fun c => ['#', ' '].contains c) ('#' :: ' ' :: name.data)) = name
  rw [lstripBy]
  cases hn : name.data with
  | nil =>
    cases name with
    | mk d =>
      simp only [String.data] at hn
      subst hn
      rfl
  | cons c cs =>
    obtain ⟨h1, h2⟩ := hc c (by rw [hn]; rfl)
    cases name with
    | mk d =>
      simp only [String.data] at hn
      subst hn
      simp [List.dropWhile, h1, h2]

theorem lstripWs_of_head (l : List Char)
    (hc : ∀ c, l.head? = some c → pyIsSpace c = false) :
    lstripBy pyIsSpace l = l := by
  cases l with
  | nil => rfl
  | cons c cs =>
    rw [lstripBy, List.dropWhile_cons, if_neg (by simp [hc c rfl])]

theorem pyStrip_eq_pyRstrip (name : String)
    (hc : ∀ c, name.data.head? = some c → pyIsSpace c = false) :
    pyStrip name = pyRstrip name := by
  rw [pyStrip, pyRstrip, lstripWs_of_head name.data hc]

/-- Claim C10: for a title block whose first non-empty line is `# <Name>`
(with `<Name>` an ordinary heading text, i.e. not itself starting with a
`#`, a space, or other whitespace), `parse_head` returns the title
`<Name>` stripped of surrounding whitespace; and it fails with the parse
error when the block has fewer than three non-empty lines. -/
theorem claim10_parse_head_title :
    (∀ (s name p1 p2 : String) (rest : List String),
      (pySplitlines s).filter (fun l => l != "")
        = ("# " ++ name) :: p1 :: p2 :: rest →
      (∀ c, name.data.head? = some c →
        c ≠ '#' ∧ c ≠ ' ' ∧ pyIsSpace c = false) →
      ∃ d, parse_head s = Except.ok (pyStrip name, d)) ∧
    (∀ s : String,
      ((pySplitlines s).filter (fun l => l != "")).length < 3 →
      parse_head s = Except.error "README description parse failure!") := by
  constructor
  · intro s name p1 p2 rest hfl hc
    refine ⟨pyStrip p1, ?_⟩
    unfold parse_head
    rw [hfl]
    show Except.ok (pyRstrip (pyLstrip ("# " ++ name) ['#', ' ']), pyStrip p1)
      = Except.ok (pyStrip name, pyStrip p1)
    rw [lstrip_hash_append name (fun c h => ⟨(hc c h).1, (hc c h).2.1⟩)]
    rw [pyStrip_eq_pyRstrip name (fun c h => (hc c h).2.2)]
  · intro s hlen
    unfold parse_head
    generalize hL : (pySplitlines s).filter (fun l => l != "") = L at hlen ⊢
    cases L with
    | nil => rfl
    | cons a L1 =>
      cases L1 with
      | nil => rfl
      | cons b L2 =>
        cases L2 with
        | nil => rfl
        | cons c L3 =>
          exfalso
          simp only [List.length_cons] at hlen
          omega

/-- Claim C10 witness: both parts at concrete title blocks. -/
theorem claim10_witness :
    (∃ d, parse_head "# Display map\nShows a map.\n![image](map.png)"
        = Except.ok (pyStrip "Display map", d)) ∧
    parse_head "# Title\nDescription"
      = Except.error "README description parse failure!" :=
  ⟨claim10_parse_head_title.1 "# Display map\nShows a map.\n![image](map.png)"
      "Display map" "Shows a map." "![image](map.png)" [] rfl
      (by
        intro c hcc
        rw [show ("Display map" : String).data.head? = some 'D' from rfl] at hcc
        cases hcc
        exact ⟨by decide, by decide, rfl⟩),
   claim10_parse_head_title.2 "# Title\nDescription" (by decide)⟩
